import Mathlib

/-!
# Verification of the PowerControl component

Shallow embedding of the `PowerControl` GPIO power-switch state machine
(repository `power_control`). The component drives one GPIO pin through an
injected hardware-access layer `IGpioHAL`; here the HAL is modelled as an
oracle: a record of pure functions giving the status each hardware call
returns. Every operation of `PowerControl` is embedded as a function from
the object state and the HAL oracle to a `StepResult` holding the returned
status, the post-state of the object, and the ordered list of hardware
calls the operation performed.

The repository contains two revisions of `power_control.cpp`. The
operative implementation embedded below as `PowerControl.init`,
`PowerControl.deinit`, `PowerControl.set_drive_capability`, etc. is the
one in `src/unnamed/part_000`, which is the revision the repository's own
unit tests (`src/unnamed/part_001`), interface documentation
(`src/unnamed/part_002`) and `API.md` describe: `deinit` attempts both of
its hardware steps and reports the first error, and `set_drive_capability`
is guarded by the initialization flag. The stale revision in
`src/src/power_control.cpp` (early-return `deinit`, unguarded
`set_drive_capability`) is embedded separately as
`PowerControl.deinit_variant` / `PowerControl.set_drive_capability_variant`
for documentation of the divergence. `init`, `apply_gpio`, `turn_on`,
`turn_off` and `toggle` are byte-identical in the two revisions.
-/

/-- `esp_err_t` is a plain machine integer status code. -/
abbrev esp_err_t := Int

/-- `ESP_OK` (0): success. -/
def ESP_OK : esp_err_t := 0

/-- `ESP_FAIL` (-1): generic failure. -/
def ESP_FAIL : esp_err_t := -1

/-- `ESP_ERR_NO_MEM` (0x101). -/
def ESP_ERR_NO_MEM : esp_err_t := 0x101

/-- `ESP_ERR_INVALID_ARG` (0x102). -/
def ESP_ERR_INVALID_ARG : esp_err_t := 0x102

/-- `ESP_ERR_INVALID_STATE` (0x103). -/
def ESP_ERR_INVALID_STATE : esp_err_t := 0x103

/-- GPIO pin identifiers (`gpio_num_t`), modelled as naturals. -/
abbrev gpio_num_t := Nat

/-- Drive-strength levels (`gpio_drive_cap_t`), ordinals 0..3. -/
abbrev gpio_drive_cap_t := Nat

/-- `GPIO_MODE_INPUT_OUTPUT = GPIO_MODE_DEF_INPUT | GPIO_MODE_DEF_OUTPUT = 3`. -/
def GPIO_MODE_INPUT_OUTPUT : Nat := 3

/-- `GPIO_PULLUP_DISABLE = 0`. -/
def GPIO_PULLUP_DISABLE : Nat := 0

/-- `GPIO_PULLDOWN_DISABLE = 0`. -/
def GPIO_PULLDOWN_DISABLE : Nat := 0

/-- `GPIO_INTR_DISABLE = 0`. -/
def GPIO_INTR_DISABLE : Nat := 0

/-- The `gpio_config_t` record filled in by `PowerControl::init`. -/
structure gpio_config_t where
  pin_bit_mask : Nat
  mode : Nat
  pull_up_en : Nat
  pull_down_en : Nat
  intr_type : Nat
deriving DecidableEq

/-- The hardware-access layer `IGpioHAL`, modelled as an oracle giving the
status each hardware call returns for given arguments. -/
structure IGpioHAL where
  reset_pin : gpio_num_t → esp_err_t
  config : gpio_config_t → esp_err_t
  set_level : gpio_num_t → Bool → esp_err_t
  set_drive_capability : gpio_num_t → gpio_drive_cap_t → esp_err_t

/-- One observable call into the hardware-access layer. -/
inductive HalCall where
  | resetPin (pin : gpio_num_t)
  | config (cfg : gpio_config_t)
  | setLevel (pin : gpio_num_t) (level : Bool)
  | setDriveCapability (pin : gpio_num_t) (strength : gpio_drive_cap_t)
deriving DecidableEq

/-- Fields of the `PowerControl` object (names as in `power_control.hpp`):
`gpio_`, `inverted_logic_` and `initial_on_` are set at construction;
`initialized_` and `is_on_` carry the mutable state, with in-class
initializers `false`. -/
structure PowerControl where
  gpio_ : gpio_num_t
  inverted_logic_ : Bool
  initial_on_ : Bool
  initialized_ : Bool
  is_on_ : Bool
deriving DecidableEq

/-- Result of one `PowerControl` operation: the returned status, the
post-state of the object, and the hardware calls performed, in order. -/
structure StepResult where
  ret : esp_err_t
  pc : PowerControl
  calls : List HalCall
deriving DecidableEq

/-- The `PowerControl` constructor: stores the pin, the logic flags, and
leaves `initialized_ = false`, `is_on_ = false` (in-class initializers). -/
def PowerControl.construct (gpio : gpio_num_t) (inverted_logic : Bool)
    (initial_on : Bool) : PowerControl :=
  { gpio_ := gpio, inverted_logic_ := inverted_logic, initial_on_ := initial_on,
    initialized_ := false, is_on_ := false }

/-- Accessor `is_on()` (power_control.hpp line 66). -/
def PowerControl.is_on (pcv : PowerControl) : Bool := pcv.is_on_

/-- Accessor `is_initialized()` (power_control.hpp line 69). -/
def PowerControl.is_initialized (pcv : PowerControl) : Bool := pcv.initialized_

/-- Accessor `get_pin()` (power_control.hpp line 72). -/
def PowerControl.get_pin (pcv : PowerControl) : gpio_num_t := pcv.gpio_

/-- `PowerControl::apply_gpio(bool enable)` (power_control.cpp lines 64-84,
identical in both revisions): guard on `initialized_`, compute the physical
level `inverted_logic_ ? !enable : enable`, write it through the HAL;
update `is_on_` only when the write succeeded, propagating the HAL status. -/
def PowerControl.apply_gpio (pcv : PowerControl) (hal : IGpioHAL)
    (enable : Bool) : StepResult :=
  if !pcv.initialized_ then
    ⟨ESP_ERR_INVALID_STATE, pcv, []⟩
  else
    let level := if pcv.inverted_logic_ then !enable else enable
    let ret := hal.set_level pcv.gpio_ level
    if ret ≠ ESP_OK then
      ⟨ret, pcv, [HalCall.setLevel pcv.gpio_ level]⟩
    else
      ⟨ESP_OK, { pcv with is_on_ := enable }, [HalCall.setLevel pcv.gpio_ level]⟩

/-- `PowerControl::turn_on()` (power_control.cpp lines 86-89). -/
def PowerControl.turn_on (pcv : PowerControl) (hal : IGpioHAL) : StepResult :=
  pcv.apply_gpio hal true

/-- `PowerControl::turn_off()` (power_control.cpp lines 91-94). -/
def PowerControl.turn_off (pcv : PowerControl) (hal : IGpioHAL) : StepResult :=
  pcv.apply_gpio hal false

/-- `PowerControl::toggle()` (power_control.cpp lines 96-99). -/
def PowerControl.toggle (pcv : PowerControl) (hal : IGpioHAL) : StepResult :=
  pcv.apply_gpio hal (!pcv.is_on_)

/-- The `io_conf` record built in `PowerControl::init` (lines 41-46):
input/output mode, one-hot pin mask (`1ULL << gpio_`, 64-bit), pulls and
interrupts disabled. -/
def io_conf (gpio : gpio_num_t) : gpio_config_t :=
  { pin_bit_mask := (1 <<< gpio) % 2 ^ 64,
    mode := GPIO_MODE_INPUT_OUTPUT,
    pull_up_en := GPIO_PULLUP_DISABLE,
    pull_down_en := GPIO_PULLDOWN_DISABLE,
    intr_type := GPIO_INTR_DISABLE }

/-- `PowerControl::init()` (power_control.cpp lines 20-62, identical in
both revisions): no-op success when already initialized; otherwise reset
the pin (propagating failure), configure it (propagating failure), mark
initialized, apply the initial logical state through `turn_on`/`turn_off`
whose status is discarded, and return `ESP_OK`. -/
def PowerControl.init (pcv : PowerControl) (hal : IGpioHAL) : StepResult :=
  if pcv.initialized_ then
    ⟨ESP_OK, pcv, []⟩
  else
    let ret := hal.reset_pin pcv.gpio_
    if ret ≠ ESP_OK then
      ⟨ret, pcv, [HalCall.resetPin pcv.gpio_]⟩
    else
      let ret2 := hal.config (io_conf pcv.gpio_)
      if ret2 ≠ ESP_OK then
        ⟨ret2, pcv, [HalCall.resetPin pcv.gpio_, HalCall.config (io_conf pcv.gpio_)]⟩
      else
        let pc1 := { pcv with initialized_ := true }
        let r3 := if pcv.initial_on_ then pc1.turn_on hal else pc1.turn_off hal
        ⟨ESP_OK, r3.pc,
          HalCall.resetPin pcv.gpio_ :: HalCall.config (io_conf pcv.gpio_) :: r3.calls⟩

/-- `PowerControl::deinit()` (src/unnamed/part_000 lines 101-136, the
revision asserted by the repository's tests and API.md): no-op success
when not initialized; otherwise force the physical level low, then reset
the pin — both attempted, the first error kept in `final_ret` — and
unconditionally clear `initialized_` and `is_on_`. -/
def PowerControl.deinit (pcv : PowerControl) (hal : IGpioHAL) : StepResult :=
  if !pcv.initialized_ then
    ⟨ESP_OK, pcv, []⟩
  else
    let ret1 := hal.set_level pcv.gpio_ false
    let final1 := if ret1 ≠ ESP_OK then ret1 else ESP_OK
    let ret2 := hal.reset_pin pcv.gpio_
    let final2 := if ret2 ≠ ESP_OK then (if final1 = ESP_OK then ret2 else final1) else final1
    ⟨final2, { pcv with initialized_ := false, is_on_ := false },
      [HalCall.setLevel pcv.gpio_ false, HalCall.resetPin pcv.gpio_]⟩

/-- `PowerControl::set_drive_capability(strength)` (src/unnamed/part_000
lines 138-152, the revision asserted by the repository's tests and
API.md): guard on `initialized_`, then forward to the HAL, returning its
status verbatim in both branches; no field is written. -/
def PowerControl.set_drive_capability (pcv : PowerControl) (hal : IGpioHAL)
    (strength : gpio_drive_cap_t) : StepResult :=
  if !pcv.initialized_ then
    ⟨ESP_ERR_INVALID_STATE, pcv, []⟩
  else
    let ret := hal.set_drive_capability pcv.gpio_ strength
    ⟨ret, pcv, [HalCall.setDriveCapability pcv.gpio_ strength]⟩

/-- Stale revision `src/src/power_control.cpp` lines 101-127: `deinit`
returns on the first failing hardware call, clearing the state flags only
when both calls succeeded. Kept to document the divergence from the
tested revision. -/
def PowerControl.deinit_variant (pcv : PowerControl) (hal : IGpioHAL) : StepResult :=
  if !pcv.initialized_ then
    ⟨ESP_OK, pcv, []⟩
  else
    let ret1 := hal.set_level pcv.gpio_ false
    if ret1 ≠ ESP_OK then
      ⟨ret1, pcv, [HalCall.setLevel pcv.gpio_ false]⟩
    else
      let ret2 := hal.reset_pin pcv.gpio_
      if ret2 ≠ ESP_OK then
        ⟨ret2, pcv, [HalCall.setLevel pcv.gpio_ false, HalCall.resetPin pcv.gpio_]⟩
      else
        ⟨ret2, { pcv with initialized_ := false, is_on_ := false },
          [HalCall.setLevel pcv.gpio_ false, HalCall.resetPin pcv.gpio_]⟩

/-- Stale revision `src/src/power_control.cpp` lines 129-133:
`set_drive_capability` forwards to the HAL with no initialization guard. -/
def PowerControl.set_drive_capability_variant (pcv : PowerControl)
    (hal : IGpioHAL) (strength : gpio_drive_cap_t) : StepResult :=
  ⟨hal.set_drive_capability pcv.gpio_ strength, pcv,
    [HalCall.setDriveCapability pcv.gpio_ strength]⟩

/-- The boolean levels written by `set_level` calls, in order, extracted
from a hardware-call trace. -/
def setLevels : List HalCall → List Bool
  | [] => []
  | HalCall.setLevel _ l :: rest => l :: setLevels rest
  | HalCall.resetPin _ :: rest => setLevels rest
  | HalCall.config _ :: rest => setLevels rest
  | HalCall.setDriveCapability _ _ :: rest => setLevels rest

/-- A HAL oracle whose calls all succeed. -/
def halOK : IGpioHAL :=
  ⟨fun _ => ESP_OK, fun _ => ESP_OK, fun _ _ => ESP_OK, fun _ _ => ESP_OK⟩

/-- A HAL oracle whose `set_level` calls fail with `ESP_FAIL`. -/
def halLevelFail : IGpioHAL :=
  ⟨fun _ => ESP_OK, fun _ => ESP_OK, fun _ _ => ESP_FAIL, fun _ _ => ESP_OK⟩

/-- A HAL oracle whose `reset_pin` calls fail with `ESP_FAIL`. -/
def halResetFail : IGpioHAL :=
  ⟨fun _ => ESP_FAIL, fun _ => ESP_OK, fun _ _ => ESP_OK, fun _ _ => ESP_OK⟩

/-- A freshly constructed controller on pin 4, normal logic, initial off. -/
def pc4 : PowerControl := PowerControl.construct 4 false false

/-- Pin-4 controller after a successful initialization, logically off. -/
def pc4up : PowerControl := { pc4 with initialized_ := true }

/-- Pin-4 controller, initialized and logically on. -/
def pc4on : PowerControl := { pc4 with initialized_ := true, is_on_ := true }

/-! ## Helper lemmas -/

/-- On an uninitialized object `apply_gpio` takes the guard branch:
invalid-state status, no hardware call, state unchanged. -/
theorem apply_gpio_of_uninit (hal : IGpioHAL) (pcv : PowerControl) (enable : Bool)
    (h : pcv.initialized_ = false) :
    pcv.apply_gpio hal enable = ⟨ESP_ERR_INVALID_STATE, pcv, []⟩ := by
  simp [PowerControl.apply_gpio, h]

/-- On an initialized object `apply_gpio` unfolds past the guard to the
single level-write with the inversion transform applied. -/
theorem apply_gpio_of_init (hal : IGpioHAL) (pcv : PowerControl) (enable : Bool)
    (h : pcv.initialized_ = true) :
    pcv.apply_gpio hal enable =
      if hal.set_level pcv.gpio_ (if pcv.inverted_logic_ then !enable else enable) ≠ ESP_OK then
        ⟨hal.set_level pcv.gpio_ (if pcv.inverted_logic_ then !enable else enable), pcv,
          [HalCall.setLevel pcv.gpio_ (if pcv.inverted_logic_ then !enable else enable)]⟩
      else
        ⟨ESP_OK, { pcv with is_on_ := enable },
          [HalCall.setLevel pcv.gpio_ (if pcv.inverted_logic_ then !enable else enable)]⟩ := by
  simp only [PowerControl.apply_gpio, h, Bool.not_true, Bool.false_eq_true, if_false]

/-- `apply_gpio` never changes the initialization flag. -/
theorem apply_gpio_initialized (hal : IGpioHAL) (pcv : PowerControl) (enable : Bool) :
    ((pcv.apply_gpio hal enable).pc).initialized_ = pcv.initialized_ := by
  by_cases h : pcv.initialized_
  · rw [apply_gpio_of_init hal pcv enable h]
    split <;> split <;> rfl
  · rw [apply_gpio_of_uninit hal pcv enable (by simpa using h)]

/-- When `apply_gpio` returns `ESP_OK` on an initialized object, the
post-state is the old state with `is_on_` set to the desired value. -/
theorem apply_gpio_ok_state (hal : IGpioHAL) (pcv : PowerControl) (enable : Bool)
    (hinit : pcv.initialized_ = true)
    (h : (pcv.apply_gpio hal enable).ret = ESP_OK) :
    (pcv.apply_gpio hal enable).pc = { pcv with is_on_ := enable } := by
  rw [apply_gpio_of_init hal pcv enable hinit] at h ⊢
  by_cases hr : hal.set_level pcv.gpio_ (if pcv.inverted_logic_ then !enable else enable) = ESP_OK
  · rw [if_neg (not_not_intro hr)]
  · rw [if_pos hr] at h
    exact absurd h hr

/-- C1: for an initialized controller, `deinit()` performs both hardware
operations (set physical level low, then reset the pin) even when the
first fails, and returns the level-set error if any, else the reset error
if any, else `ESP_OK`. -/
theorem deinit_attempts_both_and_returns_first_error
    (hal : IGpioHAL) (pcv : PowerControl) (h : pcv.is_initialized = true) :
    (pcv.deinit hal).calls
        = [HalCall.setLevel pcv.gpio_ false, HalCall.resetPin pcv.gpio_] ∧
    (pcv.deinit hal).ret
        = (if hal.set_level pcv.gpio_ false ≠ ESP_OK then hal.set_level pcv.gpio_ false
           else if hal.reset_pin pcv.gpio_ ≠ ESP_OK then hal.reset_pin pcv.gpio_
           else ESP_OK) := by
  have h1 : pcv.initialized_ = true := h
  constructor
  · simp [PowerControl.deinit, h1]
  · simp only [PowerControl.deinit, h1, Bool.not_true, Bool.false_eq_true, if_false]
    by_cases e1 : hal.set_level pcv.gpio_ false = ESP_OK <;>
      by_cases e2 : hal.reset_pin pcv.gpio_ = ESP_OK <;>
        simp [e1, e2]

/-- C1 witness: concrete initialized controller with a failing level-set. -/
theorem deinit_attempts_both_and_returns_first_error_witness :
    pc4up.is_initialized = true ∧
    ((pc4up.deinit halLevelFail).calls
        = [HalCall.setLevel pc4up.gpio_ false, HalCall.resetPin pc4up.gpio_] ∧
     (pc4up.deinit halLevelFail).ret
        = (if halLevelFail.set_level pc4up.gpio_ false ≠ ESP_OK then
             halLevelFail.set_level pc4up.gpio_ false
           else if halLevelFail.reset_pin pc4up.gpio_ ≠ ESP_OK then
             halLevelFail.reset_pin pc4up.gpio_
           else ESP_OK)) :=
  ⟨rfl, deinit_attempts_both_and_returns_first_error halLevelFail pc4up rfl⟩

/-- C2: whatever the two hardware calls return, `deinit()` on an
initialized controller forces `is_initialized()` and `is_on()` to false. -/
theorem deinit_always_clears_state
    (hal : IGpioHAL) (pcv : PowerControl) (h : pcv.is_initialized = true) :
    ((pcv.deinit hal).pc).is_initialized = false ∧
    ((pcv.deinit hal).pc).is_on = false := by
  have h1 : pcv.initialized_ = true := h
  simp [PowerControl.deinit, h1, PowerControl.is_initialized, PowerControl.is_on]

/-- C2 witness: both hardware calls fail, the state is still cleared. -/
theorem deinit_always_clears_state_witness :
    pc4on.is_initialized = true ∧
    (((pc4on.deinit halLevelFail).pc).is_initialized = false ∧
     ((pc4on.deinit halLevelFail).pc).is_on = false) :=
  ⟨rfl, deinit_always_clears_state halLevelFail pc4on rfl⟩

/-- C3: on an uninitialized controller, `turn_on`, `turn_off`, `toggle`
and `set_drive_capability` return `ESP_ERR_INVALID_STATE`, perform no
hardware call and leave the object unchanged. -/
theorem uninitialized_guard_blocks_operations
    (hal : IGpioHAL) (pcv : PowerControl) (strength : gpio_drive_cap_t)
    (h : pcv.is_initialized = false) :
    pcv.turn_on hal = ⟨ESP_ERR_INVALID_STATE, pcv, []⟩ ∧
    pcv.turn_off hal = ⟨ESP_ERR_INVALID_STATE, pcv, []⟩ ∧
    pcv.toggle hal = ⟨ESP_ERR_INVALID_STATE, pcv, []⟩ ∧
    pcv.set_drive_capability hal strength = ⟨ESP_ERR_INVALID_STATE, pcv, []⟩ := by
  have h1 : pcv.initialized_ = false := h
  exact ⟨apply_gpio_of_uninit hal pcv true h1,
         apply_gpio_of_uninit hal pcv false h1,
         apply_gpio_of_uninit hal pcv (!pcv.is_on_) h1,
         by simp [PowerControl.set_drive_capability, h1]⟩

/-- C3 witness: concrete uninitialized controller. -/
theorem uninitialized_guard_blocks_operations_witness :
    pc4.is_initialized = false ∧
    (pc4.turn_on halOK = ⟨ESP_ERR_INVALID_STATE, pc4, []⟩ ∧
     pc4.turn_off halOK = ⟨ESP_ERR_INVALID_STATE, pc4, []⟩ ∧
     pc4.toggle halOK = ⟨ESP_ERR_INVALID_STATE, pc4, []⟩ ∧
     pc4.set_drive_capability halOK 2 = ⟨ESP_ERR_INVALID_STATE, pc4, []⟩) :=
  ⟨rfl, uninitialized_guard_blocks_operations halOK pc4 2 rfl⟩

/-- C10: `set_drive_capability` mutates no field of the object: the
post-state equals the pre-state, so `is_on()`, `is_initialized()` and
`get_pin()` are unchanged whether the call succeeds or fails. -/
theorem set_drive_capability_preserves_fields
    (hal : IGpioHAL) (pcv : PowerControl) (strength : gpio_drive_cap_t) :
    (pcv.set_drive_capability hal strength).pc = pcv ∧
    ((pcv.set_drive_capability hal strength).pc).is_on = pcv.is_on ∧
    ((pcv.set_drive_capability hal strength).pc).is_initialized = pcv.is_initialized ∧
    ((pcv.set_drive_capability hal strength).pc).get_pin = pcv.get_pin := by
  have hpc : (pcv.set_drive_capability hal strength).pc = pcv := by
    simp only [PowerControl.set_drive_capability]
    split <;> rfl
  exact ⟨hpc, by rw [hpc], by rw [hpc], by rw [hpc]⟩

/-- The conditional `initial_on_ ? turn_on() : turn_off()` in `init` is
`apply_gpio` at the initial logical state. -/
theorem init_branch (pc1 : PowerControl) (hal : IGpioHAL) (b : Bool) :
    (if b then pc1.turn_on hal else pc1.turn_off hal) = pc1.apply_gpio hal b := by
  cases b <;> rfl

/-- `init` on an already-initialized object: no-op success. -/
theorem init_of_init (hal : IGpioHAL) (pcv : PowerControl)
    (h : pcv.initialized_ = true) :
    pcv.init hal = ⟨ESP_OK, pcv, []⟩ := by
  simp [PowerControl.init, h]

/-- `init` on a fresh object whose pin reset fails: the reset error is
propagated and nothing else happens. -/
theorem init_of_reset_fail (hal : IGpioHAL) (pcv : PowerControl)
    (h : pcv.initialized_ = false) (hr : hal.reset_pin pcv.gpio_ ≠ ESP_OK) :
    pcv.init hal = ⟨hal.reset_pin pcv.gpio_, pcv, [HalCall.resetPin pcv.gpio_]⟩ := by
  simp [PowerControl.init, h, hr]

/-- `init` on a fresh object whose configure call fails: the configure
error is propagated after the reset call. -/
theorem init_of_config_fail (hal : IGpioHAL) (pcv : PowerControl)
    (h : pcv.initialized_ = false) (hr : hal.reset_pin pcv.gpio_ = ESP_OK)
    (hc : hal.config (io_conf pcv.gpio_) ≠ ESP_OK) :
    pcv.init hal = ⟨hal.config (io_conf pcv.gpio_), pcv,
      [HalCall.resetPin pcv.gpio_, HalCall.config (io_conf pcv.gpio_)]⟩ := by
  simp [PowerControl.init, h, hr, hc]

/-- `init` on a fresh object whose reset and configure calls succeed:
returns `ESP_OK` and delegates the initial state to `apply_gpio` on the
now-initialized object. -/
theorem init_of_configured (hal : IGpioHAL) (pcv : PowerControl)
    (h : pcv.initialized_ = false) (hr : hal.reset_pin pcv.gpio_ = ESP_OK)
    (hc : hal.config (io_conf pcv.gpio_) = ESP_OK) :
    pcv.init hal =
      ⟨ESP_OK, (PowerControl.apply_gpio { pcv with initialized_ := true } hal pcv.initial_on_).pc,
        HalCall.resetPin pcv.gpio_ :: HalCall.config (io_conf pcv.gpio_) ::
          (PowerControl.apply_gpio { pcv with initialized_ := true } hal pcv.initial_on_).calls⟩ := by
  simp [PowerControl.init, h, hr, hc, init_branch]

/-- A successful `init` always leaves the object initialized. -/
theorem init_ok_initialized (hal : IGpioHAL) (pcv : PowerControl)
    (h : (pcv.init hal).ret = ESP_OK) :
    ((pcv.init hal).pc).initialized_ = true := by
  by_cases hi : pcv.initialized_
  · rw [init_of_init hal pcv hi]
    exact hi
  · have hi2 : pcv.initialized_ = false := by simpa using hi
    by_cases hr : hal.reset_pin pcv.gpio_ = ESP_OK
    · by_cases hc : hal.config (io_conf pcv.gpio_) = ESP_OK
      · rw [init_of_configured hal pcv hi2 hr hc]
        exact apply_gpio_initialized hal { pcv with initialized_ := true } pcv.initial_on_
      · rw [init_of_config_fail hal pcv hi2 hr hc] at h
        exact absurd h hc
    · rw [init_of_reset_fail hal pcv hi2 hr] at h
      exact absurd h hr

/-- C4 counterexample: with pin 4, normal logic, initial state ON, and a
HAL whose level-writes fail, `init()` returns success yet `is_on()` is
false, differing from the configured initial logical state. -/
theorem init_success_can_leave_stale_logical_state :
    ((PowerControl.construct 4 false true).init halLevelFail).ret = ESP_OK ∧
    ¬ (((PowerControl.construct 4 false true).init halLevelFail).pc.is_on
        = (PowerControl.construct 4 false true).initial_on_) := by
  decide

/-- C4 (amended): after `init()` on a freshly constructed object returns
success, `is_initialized()` is true; and if the level-write applying the
initial state also succeeded, `is_on()` equals the configured initial
logical state. -/
theorem init_success_sets_initial_state
    (hal : IGpioHAL) (g : gpio_num_t) (inv ion : Bool)
    (hres : ((PowerControl.construct g inv ion).init hal).ret = ESP_OK) :
    ((PowerControl.construct g inv ion).init hal).pc.is_initialized = true ∧
    (hal.set_level g (if inv then !ion else ion) = ESP_OK →
      ((PowerControl.construct g inv ion).init hal).pc.is_on = ion) := by
  constructor
  · exact init_ok_initialized hal (PowerControl.construct g inv ion) hres
  · intro hl
    by_cases hr : hal.reset_pin g = ESP_OK
    · by_cases hc : hal.config (io_conf g) = ESP_OK
      · rw [init_of_configured hal (PowerControl.construct g inv ion) rfl hr hc]
        show (PowerControl.apply_gpio ⟨g, inv, ion, true, false⟩ hal ion).pc.is_on = ion
        have hok : (PowerControl.apply_gpio ⟨g, inv, ion, true, false⟩ hal ion).ret
            = ESP_OK := by
          rw [apply_gpio_of_init hal ⟨g, inv, ion, true, false⟩ ion rfl]
          dsimp only
          rw [if_neg (not_not_intro hl)]
        rw [apply_gpio_ok_state hal ⟨g, inv, ion, true, false⟩ ion rfl hok]
        rfl
      · rw [init_of_config_fail hal (PowerControl.construct g inv ion) rfl hr hc] at hres
        exact absurd hres hc
    · rw [init_of_reset_fail hal (PowerControl.construct g inv ion) rfl hr] at hres
      exact absurd hres hr

/-- C4 witness for the amended claim: all hardware calls succeed, the
initial ON state is applied and observed. -/
theorem init_success_sets_initial_state_witness :
    ((PowerControl.construct 4 false true).init halOK).ret = ESP_OK ∧
    (((PowerControl.construct 4 false true).init halOK).pc.is_initialized = true ∧
     (halOK.set_level 4 (if false then !true else true) = ESP_OK →
       ((PowerControl.construct 4 false true).init halOK).pc.is_on = true)) :=
  ⟨rfl, init_success_sets_initial_state halOK 4 false true rfl⟩

/-- C5: on a fresh object whose reset and configure calls succeed,
`init()` returns `ESP_OK` for every HAL, whatever the final level-write
returns: that status is never propagated. -/
theorem init_ignores_initial_level_write_result
    (hal : IGpioHAL) (pcv : PowerControl) (h : pcv.is_initialized = false)
    (hr : hal.reset_pin pcv.gpio_ = ESP_OK)
    (hc : hal.config (io_conf pcv.gpio_) = ESP_OK) :
    (pcv.init hal).ret = ESP_OK := by
  rw [init_of_configured hal pcv h hr hc]

/-- C5 witness: the level-write fails (`ESP_FAIL`) yet `init()` reports
success. -/
theorem init_ignores_initial_level_write_result_witness :
    (PowerControl.construct 4 false true).is_initialized = false ∧
    halLevelFail.reset_pin (PowerControl.construct 4 false true).gpio_ = ESP_OK ∧
    halLevelFail.config (io_conf (PowerControl.construct 4 false true).gpio_) = ESP_OK ∧
    ((PowerControl.construct 4 false true).init halLevelFail).ret = ESP_OK :=
  ⟨rfl, rfl, rfl,
    init_ignores_initial_level_write_result halLevelFail
      (PowerControl.construct 4 false true) rfl rfl rfl⟩

/-- C7: `init()` on an initialized object and `deinit()` on an
uninitialized object are no-ops returning success with zero hardware
calls; and after any `init()` that returned success, a second `init()` is
such a no-op, so the hardware is touched only once. -/
theorem init_deinit_idempotent (hal : IGpioHAL) (pcv : PowerControl) :
    (pcv.is_initialized = true → pcv.init hal = ⟨ESP_OK, pcv, []⟩) ∧
    (pcv.is_initialized = false → pcv.deinit hal = ⟨ESP_OK, pcv, []⟩) ∧
    ((pcv.init hal).ret = ESP_OK →
      ((pcv.init hal).pc).init hal = ⟨ESP_OK, (pcv.init hal).pc, []⟩) := by
  refine ⟨fun h => init_of_init hal pcv h, fun h => ?_, fun h => ?_⟩
  · have h1 : pcv.initialized_ = false := h
    simp [PowerControl.deinit, h1]
  · exact init_of_init hal ((pcv.init hal).pc) (init_ok_initialized hal pcv h)

/-- C7 witness: a no-op second `init`, a no-op `deinit` when fresh, and
the two-inits-in-a-row law at concrete inputs. -/
theorem init_deinit_idempotent_witness :
    (pc4up.init halOK = ⟨ESP_OK, pc4up, []⟩) ∧
    (pc4.deinit halOK = ⟨ESP_OK, pc4, []⟩) ∧
    (((pc4.init halOK).pc).init halOK = ⟨ESP_OK, (pc4.init halOK).pc, []⟩) :=
  ⟨(init_deinit_idempotent halOK pc4up).1 rfl,
   (init_deinit_idempotent halOK pc4).2.1 rfl,
   (init_deinit_idempotent halOK pc4).2.2 (by decide)⟩

/-- The levels written by one `apply_gpio` step: exactly one write with
the inversion transform when initialized, none otherwise. -/
theorem setLevels_apply (hal : IGpioHAL) (pcv : PowerControl) (enable : Bool) :
    setLevels ((pcv.apply_gpio hal enable).calls)
      = if pcv.initialized_ then [if pcv.inverted_logic_ then !enable else enable]
        else [] := by
  by_cases h : pcv.initialized_
  · rw [apply_gpio_of_init hal pcv enable h]
    simp only [h, if_true]
    split <;> split <;> rfl
  · have h1 : pcv.initialized_ = false := by simpa using h
    rw [apply_gpio_of_uninit hal pcv enable h1]
    simp [h1, setLevels]

/-- C6: every physical level written by `turn_on`, `turn_off`, `toggle`
or the initial-state application inside `init` equals
`inverted_logic_ ? !desired : desired` for the respective desired logical
state (true, false, negated current state, configured initial state). -/
theorem physical_level_matches_inversion_law (hal : IGpioHAL) (pcv : PowerControl) :
    (∀ l ∈ setLevels ((pcv.turn_on hal).calls),
        l = (if pcv.inverted_logic_ then !true else true)) ∧
    (∀ l ∈ setLevels ((pcv.turn_off hal).calls),
        l = (if pcv.inverted_logic_ then !false else false)) ∧
    (∀ l ∈ setLevels ((pcv.toggle hal).calls),
        l = (if pcv.inverted_logic_ then !(!pcv.is_on_) else !pcv.is_on_)) ∧
    (∀ l ∈ setLevels ((pcv.init hal).calls),
        l = (if pcv.inverted_logic_ then !pcv.initial_on_ else pcv.initial_on_)) := by
  refine ⟨?_, ?_, ?_, ?_⟩
  · intro l hl
    rw [PowerControl.turn_on, setLevels_apply] at hl
    split at hl
    · simpa using hl
    · simp at hl
  · intro l hl
    rw [PowerControl.turn_off, setLevels_apply] at hl
    split at hl
    · simpa using hl
    · simp at hl
  · intro l hl
    rw [PowerControl.toggle, setLevels_apply] at hl
    split at hl
    · simpa using hl
    · simp at hl
  · intro l hl
    by_cases hi : pcv.initialized_
    · rw [init_of_init hal pcv hi] at hl
      simp [setLevels] at hl
    · have hi2 : pcv.initialized_ = false := by simpa using hi
      by_cases hr : hal.reset_pin pcv.gpio_ = ESP_OK
      · by_cases hc : hal.config (io_conf pcv.gpio_) = ESP_OK
        · rw [init_of_configured hal pcv hi2 hr hc] at hl
          have hred : setLevels ((⟨ESP_OK,
              (PowerControl.apply_gpio { pcv with initialized_ := true } hal pcv.initial_on_).pc,
              HalCall.resetPin pcv.gpio_ :: HalCall.config (io_conf pcv.gpio_) ::
                (PowerControl.apply_gpio { pcv with initialized_ := true } hal
                  pcv.initial_on_).calls⟩ : StepResult).calls)
              = setLevels ((PowerControl.apply_gpio { pcv with initialized_ := true } hal
                  pcv.initial_on_).calls) := rfl
          rw [hred, setLevels_apply] at hl
          split at hl
          · simpa using hl
          · simp at hl
        · rw [init_of_config_fail hal pcv hi2 hr hc] at hl
          simp [setLevels] at hl
      · rw [init_of_reset_fail hal pcv hi2 hr] at hl
        simp [setLevels] at hl

/-- C6 witness: with inverted logic, `turn_on` writes physical LOW. -/
theorem physical_level_matches_inversion_law_witness :
    false ∈ setLevels (((PowerControl.construct 4 true false).init halOK).pc.turn_on halOK).calls ∧
    (false : Bool)
      = (if ((PowerControl.construct 4 true false).init halOK).pc.inverted_logic_
         then !true else true) :=
  ⟨by decide,
   (physical_level_matches_inversion_law halOK
      ((PowerControl.construct 4 true false).init halOK).pc).1 false (by decide)⟩

/-- C8: `turn_on`, `turn_off` and `toggle` are `apply_gpio` at the
respective desired state; on an initialized object, when the level-write
fails `apply_gpio` returns the hardware error with the object (hence
`is_on()`) unchanged, and when it succeeds it returns `ESP_OK` with
`is_on()` updated to the desired value. -/
theorem level_write_failure_preserves_logical_state
    (hal : IGpioHAL) (pcv : PowerControl) (d : Bool)
    (h : pcv.is_initialized = true) :
    pcv.turn_on hal = pcv.apply_gpio hal true ∧
    pcv.turn_off hal = pcv.apply_gpio hal false ∧
    pcv.toggle hal = pcv.apply_gpio hal (!pcv.is_on_) ∧
    (hal.set_level pcv.gpio_ (if pcv.inverted_logic_ then !d else d) ≠ ESP_OK →
      pcv.apply_gpio hal d
        = ⟨hal.set_level pcv.gpio_ (if pcv.inverted_logic_ then !d else d), pcv,
           [HalCall.setLevel pcv.gpio_ (if pcv.inverted_logic_ then !d else d)]⟩) ∧
    (hal.set_level pcv.gpio_ (if pcv.inverted_logic_ then !d else d) = ESP_OK →
      (pcv.apply_gpio hal d).ret = ESP_OK ∧ ((pcv.apply_gpio hal d).pc).is_on = d) := by
  have h1 : pcv.initialized_ = true := h
  refine ⟨rfl, rfl, rfl, fun hf => ?_, fun hs => ?_⟩
  · rw [apply_gpio_of_init hal pcv d h1, if_pos hf]
  · have hok : (pcv.apply_gpio hal d).ret = ESP_OK := by
      rw [apply_gpio_of_init hal pcv d h1, if_neg (not_not_intro hs)]
    refine ⟨hok, ?_⟩
    rw [apply_gpio_ok_state hal pcv d h1 hok]
    rfl

/-- C8 witness: a failing write leaves the object untouched; a succeeding
write updates `is_on()`. -/
theorem level_write_failure_preserves_logical_state_witness :
    pc4up.is_initialized = true ∧
    (pc4up.apply_gpio halLevelFail true
        = ⟨halLevelFail.set_level pc4up.gpio_ (if pc4up.inverted_logic_ then !true else true),
           pc4up,
           [HalCall.setLevel pc4up.gpio_
              (if pc4up.inverted_logic_ then !true else true)]⟩) ∧
    ((pc4up.apply_gpio halOK true).ret = ESP_OK ∧
     ((pc4up.apply_gpio halOK true).pc).is_on = true) :=
  ⟨rfl,
   (level_write_failure_preserves_logical_state halLevelFail pc4up true rfl).2.2.2.1
     (by decide),
   (level_write_failure_preserves_logical_state halOK pc4up true rfl).2.2.2.2 rfl⟩

/-- C9: a successful `toggle` negates `is_on()`, and two consecutive
successful toggles restore it. -/
theorem toggle_negates_and_double_toggle_restores
    (hal : IGpioHAL) (pcv : PowerControl) (h : pcv.is_initialized = true)
    (h1 : (pcv.toggle hal).ret = ESP_OK)
    (h2 : (((pcv.toggle hal).pc).toggle hal).ret = ESP_OK) :
    ((pcv.toggle hal).pc).is_on = !pcv.is_on ∧
    ((((pcv.toggle hal).pc).toggle hal).pc).is_on = pcv.is_on := by
  have hinit : pcv.initialized_ = true := h
  have s1 : (pcv.toggle hal).pc = { pcv with is_on_ := !pcv.is_on_ } :=
    apply_gpio_ok_state hal pcv (!pcv.is_on_) hinit h1
  have hinit2 : ((pcv.toggle hal).pc).initialized_ = true := by
    rw [s1]
    exact hinit
  have s2 : (((pcv.toggle hal).pc).toggle hal).pc
      = { (pcv.toggle hal).pc with is_on_ := !((pcv.toggle hal).pc).is_on_ } :=
    apply_gpio_ok_state hal ((pcv.toggle hal).pc) (!((pcv.toggle hal).pc).is_on_) hinit2 h2
  rw [s1] at s2
  constructor
  · rw [s1]
    rfl
  · rw [s1] at *
    rw [s2]
    simp [PowerControl.is_on]

/-- C9 witness: toggles from OFF to ON and back under a succeeding HAL. -/
theorem toggle_negates_and_double_toggle_restores_witness :
    pc4up.is_initialized = true ∧
    (((pc4up.toggle halOK).pc).is_on = !pc4up.is_on ∧
     ((((pc4up.toggle halOK).pc).toggle halOK).pc).is_on = pc4up.is_on) :=
  ⟨rfl, toggle_negates_and_double_toggle_restores halOK pc4up rfl (by decide) (by decide)⟩

/-! ## Divergence of the stale revision `src/src/power_control.cpp` -/

/-- In the stale revision, a failing level-set aborts `deinit` before the
pin reset and leaves the object marked initialized, contradicting the
repository's own tests and API documentation (and claims C1/C2, which hold
of the tested revision embedded as `PowerControl.deinit`). -/
theorem deinit_variant_stops_after_first_error :
    (pc4up.deinit_variant halLevelFail).calls = [HalCall.setLevel pc4up.gpio_ false] ∧
    ((pc4up.deinit_variant halLevelFail).pc).is_initialized = true := by
  decide

/-- In the stale revision `set_drive_capability` has no initialization
guard: on an uninitialized object it still performs the hardware call,
contradicting the repository's own tests and API documentation (and claim
C3, which holds of the tested revision embedded as
`PowerControl.set_drive_capability`). -/
theorem set_drive_capability_variant_lacks_guard :
    pc4.is_initialized = false ∧
    (pc4.set_drive_capability_variant halOK 2).calls
      = [HalCall.setDriveCapability pc4.gpio_ 2] ∧
    (pc4.set_drive_capability_variant halOK 2).ret = ESP_OK := by
  decide
